import Mathlib

/-!
Verification of `hooks/run_third_party_license_generator.py`.

The script wraps an external third-party license report generator: it
builds a fixed command line, runs the generator inside a temporary
virtual environment, and strips the first and last lines of the
generated output file.  The definitions below are a shallow embedding
of the script's functions; file contents are modelled as lists of
lines, subprocess exit codes as integers, and Python exceptions as
`Except` errors.
-/

namespace LicenseGen

/-- Embedding of `remove_head_tail` (lines 145-160): the file content is read
as the list of its lines; if more than two lines are present the new content
is `lines[1:-1]` (drop the first line, drop the last line); otherwise a
`ValueError` with the source's message is raised. -/
def remove_head_tail (lines : List String) : Except String (List String) :=
  if 2 < lines.length then
    Except.ok ((lines.drop 1).dropLast)
  else
    Except.error "File must contain more than two lines to remove head and tail."

/-- File content after running `remove_head_tail` on a file holding `lines`:
the source opens the file for writing only inside the `len(lines) > 2`
branch, so on the `ValueError` path no write happens and the content on disk
is unchanged. -/
def file_after_remove_head_tail (lines : List String) : List String :=
  match remove_head_tail lines with
  | Except.ok newLines => newLines
  | Except.error _ => lines

/-- C1: on a file of n > 2 lines, `remove_head_tail` succeeds and rewrites the
file to exactly the interior lines: the result has length n - 2 and its i-th
line is the original line i + 1, so order and content are preserved. -/
theorem remove_head_tail_keeps_interior (lines : List String)
    (h : 2 < lines.length) :
    ∃ out, remove_head_tail lines = Except.ok out ∧
      out.length = lines.length - 2 ∧
      ∀ i, i < lines.length - 2 → out[i]? = lines[i + 1]? := by
  refine ⟨(lines.drop 1).dropLast, ?_, ?_, ?_⟩
  · simp [remove_head_tail, h]
  · simp only [List.length_dropLast, List.length_drop]
    omega
  · intro i hi
    have hlt : i < (lines.drop 1).length - 1 := by
      simp only [List.length_drop]
      omega
    rw [List.dropLast_eq_take, List.getElem?_take_of_lt hlt, List.getElem?_drop]
    congr 1
    omega

/-- Witness for C1 at the concrete file [A, B, C]: head and tail removed,
leaving exactly [B]. -/
theorem remove_head_tail_keeps_interior_witness :
    ∃ out, remove_head_tail ["A", "B", "C"] = Except.ok out ∧
      out.length = (["A", "B", "C"] : List String).length - 2 ∧
      ∀ i, i < (["A", "B", "C"] : List String).length - 2 →
        out[i]? = (["A", "B", "C"] : List String)[i + 1]? :=
  remove_head_tail_keeps_interior ["A", "B", "C"] (by decide)

/-- C2: on a file with two or fewer lines, `remove_head_tail` raises the
precondition-violation `ValueError` (with the source's message) and the file
content is left unmodified, since the write happens only on the success
branch. -/
theorem remove_head_tail_too_short (lines : List String)
    (h : lines.length ≤ 2) :
    remove_head_tail lines =
      Except.error
        "File must contain more than two lines to remove head and tail." ∧
    file_after_remove_head_tail lines = lines := by
  have hnot : ¬ 2 < lines.length := by omega
  constructor
  · simp [remove_head_tail, hnot]
  · simp [file_after_remove_head_tail, remove_head_tail, hnot]

/-- Witness for C2 at the concrete two-line file [A, B]: the error is raised
and the content is unchanged. -/
theorem remove_head_tail_too_short_witness :
    remove_head_tail ["A", "B"] =
      Except.error
        "File must contain more than two lines to remove head and tail." ∧
    file_after_remove_head_tail ["A", "B"] = ["A", "B"] :=
  remove_head_tail_too_short ["A", "B"] (by decide)

/-- Embedding of `subprocess.check_call`: the wrapped child process exits
with `code`; `check_call` returns 0 when the child exits 0 and raises
`CalledProcessError` carrying the exit code otherwise. -/
def check_call (code : Int) : Except Int Int :=
  if code = 0 then Except.ok 0 else Except.error code

/-- Embedding of `run_generator`'s command construction (lines 49-65): the
literal base list, then `cmd.extend(extra_args)`. -/
def run_generator_cmd (executable sys_executable : String)
    (extra_args : List String) : List String :=
  [executable, "-m", "third_party_license_file_generator",
   "--requirements-path", "pyproject.toml",
   "--python-path", sys_executable,
   "--skip-prefix", "fc",
   "--skip-prefix", "fr",
   "--skip-prefix", "FR",
   "--do-not-skip-not-required-packages"] ++ extra_args

/-- Embedding of line 47, `extra_args = extra_args or []`: Python `or`
replaces any falsy left operand, so both `None` and the empty list become
`[]`; a non-empty list is kept. -/
def or_empty (extra_args : Option (List String)) : List String :=
  match extra_args with
  | none => []
  | some l => if l.isEmpty then [] else l

/-- Embedding of `run_generator` (lines 37-66).  The environment is the exit
code of the `python -m venv` child, the exit code of the `pip install` child,
and the generator child's exit code as a function of the command it is run
with.  The result is the command that is built together with the value
`run_generator` produces: errors of the three `check_call`s propagate in
order (venv creation and pip install run in `TempVenv.__enter__` before the
generator), and on success the generator's `check_call` result is returned. -/
def run_generator (executable sys_executable : String)
    (venvExit pipExit : Int) (genExit : List String → Int)
    (extra_args : Option (List String)) :
    List String × Except Int Int :=
  let cmd := run_generator_cmd executable sys_executable (or_empty extra_args)
  (cmd,
    Except.bind (check_call venvExit) fun _ =>
      Except.bind (check_call pipExit) fun _ =>
        check_call (genExit cmd))

/-- C6: the built command starts with the fixed 14-element base list holding
the six fixed flags in their fixed order, and the extra arguments appear
verbatim as the suffix right after it, whatever they are. -/
theorem run_generator_cmd_fixed_base (executable sys_executable : String)
    (extra_args : List String) :
    (run_generator_cmd executable sys_executable extra_args).take 14 =
      [executable, "-m", "third_party_license_file_generator",
       "--requirements-path", "pyproject.toml",
       "--python-path", sys_executable,
       "--skip-prefix", "fc",
       "--skip-prefix", "fr",
       "--skip-prefix", "FR",
       "--do-not-skip-not-required-packages"] ∧
    (run_generator_cmd executable sys_executable extra_args).drop 14 =
      extra_args := by
  constructor
  · exact List.take_left' rfl
  · exact List.drop_left' rfl

/-- C9: `run_generator` called with `None` extra arguments builds the same
command and produces the same result as `run_generator` called with the
empty list, in every environment. -/
theorem run_generator_none_eq_empty (executable sys_executable : String)
    (venvExit pipExit : Int) (genExit : List String → Int) :
    run_generator executable sys_executable venvExit pipExit genExit none =
      run_generator executable sys_executable venvExit pipExit genExit
        (some []) := rfl

/-- C10: whenever `run_generator` returns normally, its value is exactly 0:
every non-zero child exit code is raised as `CalledProcessError`, never
delivered through the normal return path. -/
theorem run_generator_ok_eq_zero (executable sys_executable : String)
    (venvExit pipExit : Int) (genExit : List String → Int)
    (extra_args : Option (List String)) (r : Int)
    (h : (run_generator executable sys_executable venvExit pipExit genExit
            extra_args).2 = Except.ok r) :
    r = 0 := by
  simp only [run_generator, check_call] at h
  split at h
  · split at h
    · split at h
      · simp only [Except.bind] at h
        cases h
        rfl
      · simp [Except.bind] at h
    · simp [Except.bind] at h
  · simp [Except.bind] at h

/-- Witness for C10: in an environment where all three children exit 0,
`run_generator` returns normally and the theorem yields that the returned
value is 0. -/
theorem run_generator_ok_eq_zero_witness : (0 : Int) = 0 :=
  run_generator_ok_eq_zero "python" "python" 0 0 (fun _ => 0) none 0 rfl

/-- Embedding of `TempVenv._get_executable_path` (lines 83-95): paths are
modelled as lists of components and `os.path.join` as appending a component.
On `win32` the executable is `<venv>/Scripts/python.exe`, on every other
platform it is `<venv>/bin/python`. -/
def get_executable_path (platform : String) (venv_path : List String) :
    List String :=
  if platform = "win32" then venv_path ++ ["Scripts", "python.exe"]
  else venv_path ++ ["bin", "python"]

/-- C8: the derived executable path is a pure two-branch function of the
provisioning root and the platform: `win32` yields the root extended with
`Scripts/python.exe`, and every other platform yields the root extended with
`bin/python`. -/
theorem get_executable_path_two_branch (platform : String)
    (venv_path : List String) :
    (platform = "win32" →
      get_executable_path platform venv_path =
        venv_path ++ ["Scripts", "python.exe"]) ∧
    (platform ≠ "win32" →
      get_executable_path platform venv_path =
        venv_path ++ ["bin", "python"]) := by
  constructor
  · intro h
    simp [get_executable_path, h]
  · intro h
    simp [get_executable_path, h]

/-- Witness for C8 on both branches at the concrete root `[tmp, .venv]`:
the Windows layout on `win32` and the POSIX layout on `linux`. -/
theorem get_executable_path_two_branch_witness :
    get_executable_path "win32" ["tmp", ".venv"] =
      ["tmp", ".venv", "Scripts", "python.exe"] ∧
    get_executable_path "linux" ["tmp", ".venv"] =
      ["tmp", ".venv", "bin", "python"] :=
  ⟨(get_executable_path_two_branch "win32" ["tmp", ".venv"]).1 rfl,
   (get_executable_path_two_branch "linux" ["tmp", ".venv"]).2 (by decide)⟩

/-- Embedding of `with TempVenv() as tmp_venv: body` (lines 97-128 together
with Python's `with`-statement semantics).  `TempVenv.__init__` creates the
temporary directory; `__enter__` runs `python -m venv` and `pip install`
through `check_call`; the body then runs and either returns or raises.
Python calls `__exit__` (which runs `self._temp_dir.cleanup()`) only when
`__enter__` returned without raising: an exception inside `__enter__`
propagates without `__exit__` ever being invoked.  The result records
whether an exception escaped the `with` statement and whether the temporary
directory still exists on the filesystem at the moment the scope is left. -/
def with_TempVenv (venvExit pipExit : Int) (bodyRaises : Bool) :
    Bool × Bool :=
  match check_call venvExit with
  | Except.error _ => (true, true)
  | Except.ok _ =>
    match check_call pipExit with
    | Except.error _ => (true, true)
    | Except.ok _ => (bodyRaises, false)

/-- C5 failing input: when the `python -m venv` sub-step of acquisition
fails (exit code 1), the exception propagates out of `__enter__`, Python
never calls `__exit__`, and the temporary directory still exists on the
filesystem when the scope is left — contrary to the claimed guarantee. -/
theorem with_TempVenv_leaks_on_enter_failure :
    with_TempVenv 1 0 false = (true, true) ∧
    with_TempVenv 0 1 false = (true, true) := by
  constructor <;> rfl

/-- Embedding of `main` (lines 17-34), parameterised over the exit codes of
the three child processes and the content of the output file that `main`
would sanitize (the resolution of the output-file name to its on-disk
content is abstracted into the `fileContent` parameter).  A
`CalledProcessError` from `run_generator` is caught and its return code
returned; on success `remove_head_tail` runs, rewriting the file, and any
`ValueError` it raises propagates uncaught.  The result is `main`'s outcome
(normal return code, or the uncaught error) paired with the output file's
content afterwards. -/
def main_run (executable sys_executable : String)
    (venvExit pipExit genExit : Int) (argv_tail : List String)
    (fileContent : List String) :
    Except String Int × List String :=
  match (run_generator executable sys_executable venvExit pipExit
          (fun _ => genExit) (some argv_tail)).2 with
  | Except.error rc => (Except.ok rc, fileContent)
  | Except.ok rc =>
    match remove_head_tail fileContent with
    | Except.ok newContent => (Except.ok rc, newContent)
    | Except.error e => (Except.error e, fileContent)

/-- C4: if the generator child exits with a non-zero code k (the venv and
pip sub-steps having succeeded, or the generator would never run), `main`
returns exactly k, and no sanitization is attempted: the output file's
content is unchanged whatever it was. -/
theorem main_propagates_nonzero_exit (executable sys_executable : String)
    (k : Int) (argv_tail fileContent : List String) (hk : k ≠ 0) :
    main_run executable sys_executable 0 0 k argv_tail fileContent =
      (Except.ok k, fileContent) := by
  simp [main_run, run_generator, check_call, Except.bind, hk]

/-- Witness for C4 at exit code 3: `main` reports 3 and the pre-existing
output file keeps its content byte for byte. -/
theorem main_propagates_nonzero_exit_witness :
    main_run "python" "python" 0 0 3 [] ["head", "body", "tail"] =
      (Except.ok 3, ["head", "body", "tail"]) :=
  main_propagates_nonzero_exit "python" "python" 3 [] ["head", "body", "tail"]
    (by decide)

/-- Splits a character list at the first occurrence of `sep`, returning the
parts before and after it, or `none` when `sep` does not occur. -/
def splitAtChar (sep : Char) : List Char → Option (List Char × List Char)
  | [] => none
  | c :: cs =>
    if c = sep then some ([], cs)
    else
      match splitAtChar sep cs with
      | none => none
      | some (pre, post) => some (c :: pre, post)

/-- True when the token selects the long option `--output-file`: argparse
accepts the full name and any unambiguous abbreviation, i.e. every token
that strictly extends `--` and is itself a prefix of `--output-file` (the
only other option of the parser is the automatic `--help`, so every such
abbreviation is unambiguous). -/
def isLongOpt (t : String) : Bool :=
  List.isPrefixOf "--".data t.data &&
    (decide (2 < t.length) && List.isPrefixOf t.data "--output-file".data)

/-- True when the token selects the automatic `--help` option by its long
name or an unambiguous abbreviation of it. -/
def isLongHelp (t : String) : Bool :=
  List.isPrefixOf "--".data t.data &&
    (decide (2 < t.length) && List.isPrefixOf t.data "--help".data)

/-- argparse's negative-number matcher `-\d+` or `-\d*\.\d+`: such a token
is treated as positional, not as an option, when the parser (like this one)
has no numeric-looking option strings. -/
def isNegativeNumber (t : String) : Bool :=
  match t.data with
  | '-' :: rest =>
    (!rest.isEmpty && rest.all Char.isDigit) ||
      (match splitAtChar '.' rest with
       | some (intPart, fracPart) =>
         intPart.all Char.isDigit &&
           (!fracPart.isEmpty && fracPart.all Char.isDigit)
       | none => false)
  | _ => false

/-- argparse's classification of a token as an option-like string: it starts
with the prefix character `-` and is more than the bare `-`, does not look
like a negative number, and contains no space.  A token consumed as the
value of `-o or --output-file` must not be option-like, or argparse reports
`expected one argument`. -/
def looksLikeOption (t : String) : Bool :=
  match t.data with
  | '-' :: c :: cs =>
    !(isNegativeNumber t) && !((('-' : Char) :: c :: cs).contains ' ')
  | _ => false

/-- How argparse treats one token of the command line, for a parser whose
declared option is `-o or --output-file` (plus the automatic
`-h or --help`): `sep` is the first `--`, which ends option parsing;
`consumeNext` is an exact or abbreviated option name whose value is the
following token (`-o`, `--output-file`, `--out`, ...); `inlineVal v`
carries its value inside the token (`-o=v`, `-ov`, `--output-file=v`,
`--out=v`); `helpStop` selects the help option, which prints the usage and
exits; `badToken` is a token argparse rejects outright (an explicit
argument handed to the zero-argument help option, or the ambiguous `--=v`
which abbreviates both long options); `other` is anything else — a
positional or an unknown option, which `parse_known_args` collects into
the extras without error. -/
inductive TokenClass where
  | sep : TokenClass
  | consumeNext : TokenClass
  | inlineVal : String → TokenClass
  | helpStop : TokenClass
  | badToken : TokenClass
  | other : TokenClass
deriving DecidableEq

/-- Classification of one token, following argparse `_parse_optional` and
`_get_option_tuples` for the options `-o or --output-file` and
`-h or --help`. -/
def tokenClass (t : String) : TokenClass :=
  if t = "--" then TokenClass.sep
  else if t = "-h" || isLongHelp t then TokenClass.helpStop
  else if t = "-o" || isLongOpt t then TokenClass.consumeNext
  else
    match splitAtChar '=' t.data with
    | some (pre, post) =>
      if String.mk pre = "-o" || isLongOpt (String.mk pre) then
        TokenClass.inlineVal (String.mk post)
      else if String.mk pre = "--" then TokenClass.badToken
      else if String.mk pre = "-h" || isLongHelp (String.mk pre) then
        TokenClass.badToken
      else if List.isPrefixOf "-o".data t.data then
        TokenClass.inlineVal (String.mk (t.data.drop 2))
      else if List.isPrefixOf "-h".data t.data then TokenClass.badToken
      else TokenClass.other
    | none =>
      if List.isPrefixOf "-o".data t.data then
        TokenClass.inlineVal (String.mk (t.data.drop 2))
      else if List.isPrefixOf "-h".data t.data then TokenClass.badToken
      else TokenClass.other

/-- Embedding of `parser.parse_known_args()` for the declared option and
the automatic help option: scans the tokens left to right, later
occurrences of the option overwriting earlier ones (argparse stores each
occurrence into the same `output_file` slot), unknown tokens collected
silently.  `Except.error` is any `SystemExit` path: the option's required
value missing or followed by an option-like token, a rejected token, or
the help option printing the usage and exiting. -/
def scan_args : List String → Option String → Except Unit (Option String)
  | [], acc => Except.ok acc
  | [t], acc =>
    match tokenClass t with
    | TokenClass.sep => Except.ok acc
    | TokenClass.consumeNext => Except.error ()
    | TokenClass.inlineVal v => Except.ok (some v)
    | TokenClass.helpStop => Except.error ()
    | TokenClass.badToken => Except.error ()
    | TokenClass.other => Except.ok acc
  | t :: v :: rest2, acc =>
    match tokenClass t with
    | TokenClass.sep => Except.ok acc
    | TokenClass.consumeNext =>
      if looksLikeOption v then Except.error ()
      else scan_args rest2 (some v)
    | TokenClass.inlineVal w => scan_args (v :: rest2) (some w)
    | TokenClass.helpStop => Except.error ()
    | TokenClass.badToken => Except.error ()
    | TokenClass.other => scan_args (v :: rest2) acc

/-- Embedding of `parse_output_file` (lines 131-142): parse the known
option out of the arguments, then return Python's
`getattr(args, "output_file", "THIRDPARTYLICENSES")`.  argparse always
stores the `output_file` attribute — with value `None` when the option
never occurred — so the `getattr` fallback is dead code and the parsed
value is returned directly; Python `None` is `Option.none`. -/
def parse_output_file (argv : List String) : Except Unit (Option String) :=
  scan_args argv none

theorem scan_args_cons_other (t : String) (rest : List String)
    (acc : Option String) (ht : tokenClass t = TokenClass.other) :
    scan_args (t :: rest) acc = scan_args rest acc := by
  cases rest with
  | nil =>
    show scan_args [t] acc = Except.ok acc
    rw [scan_args, ht]
  | cons v rest2 => rw [scan_args, ht]

theorem scan_args_all_other (argv : List String) (acc : Option String)
    (h : ∀ t ∈ argv, tokenClass t = TokenClass.other) :
    scan_args argv acc = Except.ok acc := by
  induction argv with
  | nil => rfl
  | cons t rest ih =>
    rw [scan_args_cons_other t rest acc (h t (List.mem_cons_self t rest))]
    exact ih fun x hx => h x (List.mem_cons_of_mem t hx)

theorem scan_args_append_all_other (pre rest : List String)
    (acc : Option String)
    (h : ∀ t ∈ pre, tokenClass t = TokenClass.other) :
    scan_args (pre ++ rest) acc = scan_args rest acc := by
  induction pre with
  | nil => rfl
  | cons t pre2 ih =>
    rw [List.cons_append,
      scan_args_cons_other t (pre2 ++ rest) acc (h t (List.mem_cons_self t pre2))]
    exact ih fun x hx => h x (List.mem_cons_of_mem t hx)

/-- C3 divergence: on every argument list that contains no token touching
the `-o or --output-file` option, `parse_output_file` returns Python `None` —
not the documented default `THIRDPARTYLICENSES`, because argparse has
already stored `None` in the attribute and the `getattr` fallback never
fires. -/
theorem parse_output_file_no_option_is_none (argv : List String)
    (h : ∀ t ∈ argv, tokenClass t = TokenClass.other) :
    parse_output_file argv = Except.ok none ∧
    parse_output_file argv ≠ Except.ok (some "THIRDPARTYLICENSES") := by
  have hnone : parse_output_file argv = Except.ok none :=
    scan_args_all_other argv none h
  refine ⟨hnone, ?_⟩
  rw [hnone]
  intro hc
  simp at hc

/-- Witness for C3 at the empty argument list (and at a list holding only
arguments unknown to the parser, via the hypothesis): the parsed output
file is `None`. -/
theorem parse_output_file_no_option_is_none_witness :
    parse_output_file [] = Except.ok none ∧
    parse_output_file [] ≠ Except.ok (some "THIRDPARTYLICENSES") :=
  parse_output_file_no_option_is_none [] (by decide)

/-- C7 counterexample: an argument list that contains `-o custom.txt` but
also a later `-o other.txt` parses to `other.txt`, not `custom.txt` —
argparse keeps the last binding of the option. -/
theorem parse_output_file_last_occurrence_wins :
    parse_output_file ["-o", "custom.txt", "-o", "other.txt"] =
      Except.ok (some "other.txt") ∧
    parse_output_file ["-o", "custom.txt", "-o", "other.txt"] ≠
      Except.ok (some "custom.txt") := by
  have heval : parse_output_file ["-o", "custom.txt", "-o", "other.txt"] =
      Except.ok (some "other.txt") := rfl
  refine ⟨heval, ?_⟩
  rw [heval]
  intro hc
  injection hc with h1
  injection h1 with h2
  exact absurd h2 (by decide)

/-- C7 amended: if `-o v` (or `--output-file v`) is the only place the
option occurs — no other token of the list selects or abbreviates the
option, and the value itself is not option-like — then parsing yields
exactly `v`, and in particular arbitrary unknown arguments around the
option never cause a parse error. -/
theorem parse_output_file_finds_value (pre post : List String) (v : String)
    (hpre : ∀ t ∈ pre, tokenClass t = TokenClass.other)
    (hpost : ∀ t ∈ post, tokenClass t = TokenClass.other)
    (hv : looksLikeOption v = false) :
    parse_output_file (pre ++ "-o" :: v :: post) = Except.ok (some v) ∧
    parse_output_file (pre ++ "--output-file" :: v :: post) =
      Except.ok (some v) := by
  have hshort : tokenClass "-o" = TokenClass.consumeNext := by decide
  have hlong : tokenClass "--output-file" = TokenClass.consumeNext := by decide
  constructor
  · rw [parse_output_file, scan_args_append_all_other pre _ none hpre,
      scan_args, hshort]
    simp only [hv, if_false, Bool.false_eq_true]
    exact scan_args_all_other post (some v) hpost
  · rw [parse_output_file, scan_args_append_all_other pre _ none hpre,
      scan_args, hlong]
    simp only [hv, if_false, Bool.false_eq_true]
    exact scan_args_all_other post (some v) hpost

/-- Witness for the amended C7: `-o custom.txt` surrounded by an unknown
flag and a positional parses to `custom.txt` with no error, and the same
with `--output-file custom.txt`. -/
theorem parse_output_file_finds_value_witness :
    parse_output_file ["--verbose", "-o", "custom.txt", "positional"] =
      Except.ok (some "custom.txt") ∧
    parse_output_file ["--verbose", "--output-file", "custom.txt",
      "positional"] = Except.ok (some "custom.txt") :=
  parse_output_file_finds_value ["--verbose"] ["positional"] "custom.txt"
    (by decide) (by decide) (by decide)

end LicenseGen
